import Mathlib

/-!
Verification of the waste-management chat backend (`src/main.py`).

The core logic is the topic classifier `is_waste_management_question`
and the FAQ-matching reply logic of the `/chat` handler.  Message text
(a Python `str`) is modelled as `List Char`; Python's substring test
`word in t` is modelled by `occursIn`, and `str.lower()` by `lower`
(character-wise lowercasing, adequate for the ASCII keyword tables of
this program).
-/

/-- Python's substring containment `word in t` on strings:
`word` occurs contiguously somewhere in `t`. -/
def occursIn (word : String) (t : List Char) : Bool :=
  decide (word.toList <:+: t)

/-- Python's `text.lower()`, character-wise. -/
def lower (text : List Char) : List Char :=
  text.map Char.toLower

/-- `any(word in t for word in keywords)` from the classifier. -/
def hitAny (keywords : List String) (t : List Char) : Bool :=
  keywords.any (fun word => occursIn word t)

/-- The `waste_keywords` table of `is_waste_management_question`. -/
def waste_keywords : List String :=
  ["waste", "garbage", "trash", "refuse", "rubbish", "litter",
   "recycle", "recycling", "compost", "composting", "landfill",
   "incineration", "waste segregation", "segregation", "bin", "bins",
   "collection", "pickup", "solid waste", "hazardous waste", "ewaste",
   "e-waste", "medical waste", "organic waste", "plastic", "paper",
   "glass", "metal", "battery", "electronics disposal", "zero waste",
   "circular economy", "resource recovery", "material recovery",
   "mrf", "msw", "municipal waste", "biodegradable", "non-biodegradable",
   "sanitary waste", "waste audit", "dumpster", "transfer station",
   "compactor", "leachate", "methane", "anaerobic digestion",
   "extended producer responsibility", "epr",
   "collection schedule", "pickup schedule", "bulk waste",
   "drop-off", "recycling center", "recycling centre", "clean-up",
   "sorting", "guidelines", "contamination", "blue bin", "green bin",
   "brown bin"]

/-- The `banned_keywords` table of `is_waste_management_question`. -/
def banned_keywords : List String :=
  ["stock", "stocks", "share", "shares", "crypto", "bitcoin",
   "ethereum", "forex", "currency", "currencies", "dividend",
   "portfolio", "valuation", "budget", "loan", "mortgage", "interest",
   "roi", "return on investment", "revenue", "profit", "loss",
   "accounting", "tax", "taxes", "irs", "gst", "balance sheet",
   "income statement", "inflation", "economy", "economic", "finance",
   "financial", "bank", "banking", "trading", "hedge", "fund"]

/-- The `context_hints` table of `is_waste_management_question`. -/
def context_hints : List String :=
  ["bin day", "pickup day", "how to dispose", "can i throw"]

/-- Reason string for the banned-topic refusal. -/
def banned_reason : String :=
  "Question appears to be about finance/business, which is out of scope."

/-- Reason string for a waste-keyword match. -/
def waste_reason : String :=
  "Detected waste-management related keywords."

/-- Reason string for a context-hint match. -/
def context_reason : String :=
  "Detected disposal/pickup context."

/-- Reason string for the default (no-match) outcome. -/
def no_match_reason : String :=
  "Could not match the topic to waste management."

/-- The classifier `is_waste_management_question(text)` of `src/main.py`:
lowercase the text, test the banned and waste keyword tables by substring
containment, apply the precedence rules, then the context-hint fallback,
then the default refusal.  Each branch returns exactly one reason. -/
def is_waste_management_question (text : List Char) : Bool × List String :=
  if hitAny banned_keywords (lower text) && !(hitAny waste_keywords (lower text)) then
    (false, [banned_reason])
  else if hitAny waste_keywords (lower text) then
    (true, [waste_reason])
  else if hitAny context_hints (lower text) then
    (true, [context_reason])
  else
    (false, [no_match_reason])

/-- The response model `ChatResponse` of `src/main.py`. -/
structure ChatResponse where
  reply : String
  allowed : Bool
  reasons : List String
deriving DecidableEq, Repr

/-- The refusal reply returned by `/chat` when the classifier disallows. -/
def refusal_reply : String :=
  "I'm here to help with waste management topics only. Please ask about recycling, disposal guidelines, pickup schedules, composting, etc."

/-- The `faqs` table of the `/chat` handler, in source order. -/
def faqs : List (String × String) :=
  [("plastic", "Clean and dry plastics with numbers 1-5 are typically recyclable. Film/plastic bags usually are not curbside—use store drop-offs if available."),
   ("battery", "Batteries should not go in regular bins. Use designated e-waste or hazardous waste drop-offs in your city."),
   ("compost", "Compost accepts food scraps, coffee grounds, yard waste, and uncoated paper. Avoid meat, dairy, and oily foods if your local guidelines restrict them."),
   ("glass", "Rinse glass containers and remove caps. Some areas separate by color; check local rules."),
   ("electronics", "Electronics are e-waste. Use certified e-waste collection points for safe recycling."),
   ("pickup", "Curbside pickup days vary by location. Please check your local collection schedule or provide your area for specific guidance."),
   ("hazard", "Hazardous waste (paint, chemicals, solvents) requires special drop-offs—never place in regular bins."),
   ("landfill", "Items that are contaminated, mixed materials, or non-recyclable plastics often go to landfill. Consider reuse first.")]

/-- The generic fallback reply of `/chat` when no FAQ keyword matches. -/
def generic_reply : String :=
  "This appears related to waste management. Could you share your city/area if you need local rules, or specify the material/item you're disposing of?"

/-- The FAQ scan of `/chat`: the answer of the first pair whose keyword
occurs in the lowercased text, else the generic fallback. -/
def faq_reply (t : List Char) : String :=
  match faqs.find? (fun p => occursIn p.1 t) with
  | some p => p.2
  | none => generic_reply

/-- The `/chat` handler `chat(req)` of `src/main.py`, composed of the
classifier and the FAQ responder. -/
def chat (message : List Char) : ChatResponse :=
  if !(is_waste_management_question message).1 then
    { reply := refusal_reply
      allowed := false
      reasons := (is_waste_management_question message).2 }
  else
    { reply := faq_reply (lower message)
      allowed := true
      reasons := (is_waste_management_question message).2 }

/-! ### Helper lemmas -/

theorem occursIn_iff {word : String} {t : List Char} :
    occursIn word t = true ↔ word.toList <:+: t := by
  simp [occursIn]

theorem hitAny_iff {keywords : List String} {t : List Char} :
    hitAny keywords t = true ↔ ∃ w ∈ keywords, w.toList <:+: t := by
  simp [hitAny, occursIn]

theorem hitAny_of_mem {w : String} {keywords : List String} {t : List Char}
    (hmem : w ∈ keywords) (h : w.toList <:+: t) : hitAny keywords t = true :=
  hitAny_iff.mpr ⟨w, hmem, h⟩

/-! ### Claim theorems -/

/-- C1: any text whose lowercased form contains a waste-domain keyword —
whether or not it also contains a banned keyword — is classified
`allowed = true` with the single waste-keyword reason. -/
theorem classifier_waste_hit_allows (text : List Char)
    (h : hitAny waste_keywords (lower text) = true) :
    is_waste_management_question text = (true, [waste_reason]) := by
  unfold is_waste_management_question
  rw [h]
  simp

/-- C1 witness: "Can I recycle plastic or invest in stocks?" contains both a
waste keyword and a banned keyword and is allowed with the waste reason. -/
theorem classifier_waste_hit_allows_witness :
    hitAny waste_keywords (lower ("Can I recycle plastic or invest in stocks?".toList)) = true ∧
    is_waste_management_question ("Can I recycle plastic or invest in stocks?".toList) =
      (true, [waste_reason]) :=
  ⟨by decide, classifier_waste_hit_allows _ (by decide)⟩

/-- C2: any text whose lowercased form contains a banned keyword and no
waste-domain keyword is classified `allowed = false` with the single
out-of-scope finance/business reason. -/
theorem classifier_banned_only_refuses (text : List Char)
    (hb : hitAny banned_keywords (lower text) = true)
    (hw : hitAny waste_keywords (lower text) = false) :
    is_waste_management_question text = (false, [banned_reason]) := by
  unfold is_waste_management_question
  rw [hb, hw]
  simp

/-- C2 witness: "best stock to buy" hits only the banned table and is
refused with the finance/business reason. -/
theorem classifier_banned_only_refuses_witness :
    hitAny banned_keywords (lower ("best stock to buy".toList)) = true ∧
    hitAny waste_keywords (lower ("best stock to buy".toList)) = false ∧
    is_waste_management_question ("best stock to buy".toList) = (false, [banned_reason]) :=
  ⟨by decide, by decide, classifier_banned_only_refuses _ (by decide) (by decide)⟩

/-- C5: any text whose lowercased form contains no waste keyword and no
banned keyword but contains a context-hint phrase is classified
`allowed = true` with the single disposal/pickup-context reason. -/
theorem classifier_context_hint_allows (text : List Char)
    (hw : hitAny waste_keywords (lower text) = false)
    (hb : hitAny banned_keywords (lower text) = false)
    (hc : hitAny context_hints (lower text) = true) :
    is_waste_management_question text = (true, [context_reason]) := by
  unfold is_waste_management_question
  rw [hw, hb, hc]
  simp

/-- C5 witness: "how to dispose of this item" matches only the
context-hint table and is allowed with the context reason. -/
theorem classifier_context_hint_allows_witness :
    hitAny waste_keywords (lower ("how to dispose of this item".toList)) = false ∧
    hitAny banned_keywords (lower ("how to dispose of this item".toList)) = false ∧
    hitAny context_hints (lower ("how to dispose of this item".toList)) = true ∧
    is_waste_management_question ("how to dispose of this item".toList) =
      (true, [context_reason]) :=
  ⟨by decide, by decide, by decide,
   classifier_context_hint_allows _ (by decide) (by decide) (by decide)⟩

/-- C6: any text whose lowercased form contains no waste keyword, no banned
keyword, and no context-hint phrase is classified `allowed = false` with
the single no-topic-match reason. -/
theorem classifier_default_refuses (text : List Char)
    (hw : hitAny waste_keywords (lower text) = false)
    (hb : hitAny banned_keywords (lower text) = false)
    (hc : hitAny context_hints (lower text) = false) :
    is_waste_management_question text = (false, [no_match_reason]) := by
  unfold is_waste_management_question
  rw [hw, hb, hc]
  simp

/-- C6 witness: "hello there" matches none of the tables and is refused
with the no-topic-match reason. -/
theorem classifier_default_refuses_witness :
    hitAny waste_keywords (lower ("hello there".toList)) = false ∧
    hitAny banned_keywords (lower ("hello there".toList)) = false ∧
    hitAny context_hints (lower ("hello there".toList)) = false ∧
    is_waste_management_question ("hello there".toList) = (false, [no_match_reason]) :=
  ⟨by decide, by decide, by decide,
   classifier_default_refuses _ (by decide) (by decide) (by decide)⟩

/-- C10: whenever the classifier returns the disposal/pickup-context
reason, the lowercased text contains "how to dispose" or "can i throw":
the hints "bin day" and "pickup day" can never fire, because they contain
the waste keywords "bin" and "pickup", so any text containing them is
already accepted by the waste-keyword branch. -/
theorem context_reason_needs_dispose_or_throw (text : List Char)
    (h : (is_waste_management_question text).2 = [context_reason]) :
    "how to dispose".toList <:+: lower text ∨ "can i throw".toList <:+: lower text := by
  unfold is_waste_management_question at h
  split_ifs at h with h1 h2 h3
  · exact absurd (congrArg List.head? h) (by decide)
  · exact absurd (congrArg List.head? h) (by decide)
  · rw [hitAny_iff] at h3
    obtain ⟨w, hw_mem, hw_inf⟩ := h3
    have hnot_waste : ¬ hitAny waste_keywords (lower text) = true := h2
    simp only [context_hints, List.mem_cons, List.not_mem_nil, or_false] at hw_mem
    rcases hw_mem with rfl | rfl | rfl | rfl
    · exact absurd (hitAny_of_mem (by decide : "bin" ∈ waste_keywords)
        ((by decide : "bin".toList <:+: "bin day".toList).trans hw_inf)) hnot_waste
    · exact absurd (hitAny_of_mem (by decide : "pickup" ∈ waste_keywords)
        ((by decide : "pickup".toList <:+: "pickup day".toList).trans hw_inf)) hnot_waste
    · exact Or.inl hw_inf
    · exact Or.inr hw_inf
  · exact absurd (congrArg List.head? h) (by decide)

/-- C10 witness: "can i throw this out" yields the context reason, and its
lowercased form indeed contains "can i throw". -/
theorem context_reason_needs_dispose_or_throw_witness :
    (is_waste_management_question ("can i throw this out".toList)).2 = [context_reason] ∧
    ("how to dispose".toList <:+: lower ("can i throw this out".toList) ∨
     "can i throw".toList <:+: lower ("can i throw this out".toList)) :=
  ⟨by decide, context_reason_needs_dispose_or_throw _ (by decide)⟩

/-- C3 counterexample: on "Tell me about bin day" the classifier does NOT
take the context-hint path — its reason list is the waste-keyword reason,
not the disposal/pickup-context reason, because "bin" is a waste keyword. -/
theorem bin_day_context_path_counterexample :
    (chat ("Tell me about bin day".toList)).allowed = true ∧
    (chat ("Tell me about bin day".toList)).reasons ≠ [context_reason] := by
  constructor
  · decide
  · decide

/-- C3 amended: on "Tell me about bin day" the pipeline returns
`allowed = true` via the waste-keyword path (the waste keyword "bin"
occurs in the text, so the waste-keyword reason is reported, not the
context-hint reason) together with the generic fallback reply. -/
theorem bin_day_via_waste_path :
    chat ("Tell me about bin day".toList) =
      { reply := generic_reply, allowed := true, reasons := [waste_reason] } := by
  decide

/-- C9: on "When is my recycling pickup?" the pipeline returns
`allowed = true` with the canned "pickup" FAQ answer, and none of the FAQ
keywords listed before "pickup" occurs in the text. -/
theorem recycling_pickup_scenario :
    chat ("When is my recycling pickup?".toList) =
      { reply := "Curbside pickup days vary by location. Please check your local collection schedule or provide your area for specific guidance."
        allowed := true
        reasons := [waste_reason] } ∧
    (faqs.take 5).all
      (fun p => !(occursIn p.1 (lower ("When is my recycling pickup?".toList)))) = true := by
  constructor
  · decide
  · decide

/-- C4: the responder returns the answer of the first FAQ pair whose
keyword occurs in the lowercased allowed text: if the FAQ table splits as
`pre ++ (k, ans) :: post` where no keyword of `pre` occurs in the text and
`k` does, the reply is `ans`. -/
theorem responder_first_match (text : List Char) (pre post : List (String × String))
    (k ans : String)
    (hfaq : faqs = pre ++ (k, ans) :: post)
    (hpre : ∀ p ∈ pre, occursIn p.1 (lower text) = false)
    (hk : occursIn k (lower text) = true)
    (hallow : (is_waste_management_question text).1 = true) :
    (chat text).reply = ans := by
  unfold chat
  rw [hallow]
  simp only [Bool.not_true, Bool.false_eq_true, if_false]
  unfold faq_reply
  rw [hfaq, List.find?_append]
  have hnone : pre.find? (fun p => occursIn p.1 (lower text)) = none := by
    rw [List.find?_eq_none]
    intro p hp
    simp [hpre p hp]
  have hfound : List.find? (fun p => occursIn p.1 (lower text)) ((k, ans) :: post) =
      some (k, ans) := List.find?_cons_of_pos post hk
  rw [hnone, hfound]
  rfl

/-- C4 witness: "plastic battery" matches both the "plastic" and "battery"
FAQ keywords; the reply is the "plastic" answer, the first pair in the
table, not the "battery" answer. -/
theorem responder_first_match_witness :
    faqs = [] ++ ("plastic", "Clean and dry plastics with numbers 1-5 are typically recyclable. Film/plastic bags usually are not curbside—use store drop-offs if available.") :: faqs.tail ∧
    occursIn "plastic" (lower ("plastic battery".toList)) = true ∧
    occursIn "battery" (lower ("plastic battery".toList)) = true ∧
    (is_waste_management_question ("plastic battery".toList)).1 = true ∧
    (chat ("plastic battery".toList)).reply =
      "Clean and dry plastics with numbers 1-5 are typically recyclable. Film/plastic bags usually are not curbside—use store drop-offs if available." :=
  ⟨rfl, by decide, by decide, by decide,
   responder_first_match ("plastic battery".toList) [] faqs.tail "plastic" _ rfl
     (by intro p hp; exact absurd hp (List.not_mem_nil p)) (by decide) (by decide)⟩

/-- On every branch the classifier returns exactly one reason. -/
theorem classifier_single_reason (text : List Char) :
    (is_waste_management_question text).2.length = 1 := by
  unfold is_waste_management_question
  split_ifs <;> rfl

/-- C7: for every input text, the chat outcome has a non-empty reply and a
reasons list of exactly one element. -/
theorem chat_reply_nonempty_single_reason (text : List Char) :
    (chat text).reply ≠ "" ∧ (chat text).reasons.length = 1 := by
  unfold chat
  split_ifs with h
  · refine ⟨?_, classifier_single_reason text⟩
    show refusal_reply ≠ ""
    decide
  · refine ⟨?_, classifier_single_reason text⟩
    show faq_reply (lower text) ≠ ""
    unfold faq_reply
    cases hfind : faqs.find? (fun p => occursIn p.1 (lower text)) with
    | none => decide
    | some p =>
      have hmem : p ∈ faqs := List.mem_of_find?_eq_some hfind
      have hall : ∀ q ∈ faqs, q.2 ≠ "" := by decide
      exact hall p hmem

/-- Lowercasing keeps whitespace characters whitespace. -/
theorem toLower_whitespace {c : Char} (h : c.isWhitespace = true) :
    c.toLower.isWhitespace = true := by
  have h4 : ((c = ' ' ∨ c = '\t') ∨ c = '\x0d') ∨ c = '\n' := by
    simpa [Char.isWhitespace] using h
  rcases h4 with ((rfl | rfl) | rfl) | rfl <;> decide

/-- No keyword of a table whose every entry has a non-whitespace character
can occur in an all-whitespace text. -/
theorem hitAny_whitespace (keywords : List String) (t : List Char)
    (hws : ∀ c ∈ t, c.isWhitespace = true)
    (hkw : keywords.all (fun w => w.toList.any (fun c => !c.isWhitespace)) = true) :
    hitAny keywords t = false := by
  rw [Bool.eq_false_iff]
  intro htrue
  rw [hitAny_iff] at htrue
  obtain ⟨w, hw_mem, hw_inf⟩ := htrue
  rw [List.all_eq_true] at hkw
  have hany := hkw w hw_mem
  rw [List.any_eq_true] at hany
  obtain ⟨c, hc_mem, hc⟩ := hany
  have hct : c ∈ t := hw_inf.subset hc_mem
  have hcw := hws c hct
  simp [hcw] at hc

/-- C8: the classifier is a total function of the text (a total Lean
function by construction), and on empty or whitespace-only input it falls
through to the default outcome: `allowed = false` with the
no-topic-match reason. -/
theorem classifier_whitespace_default (text : List Char)
    (h : ∀ c ∈ text, c.isWhitespace = true) :
    is_waste_management_question text = (false, [no_match_reason]) := by
  have hlow : ∀ c ∈ lower text, c.isWhitespace = true := by
    intro c hc
    simp only [lower, List.mem_map] at hc
    obtain ⟨d, hd, rfl⟩ := hc
    exact toLower_whitespace (h d hd)
  have hb := hitAny_whitespace banned_keywords (lower text) hlow (by decide)
  have hw := hitAny_whitespace waste_keywords (lower text) hlow (by decide)
  have hc := hitAny_whitespace context_hints (lower text) hlow (by decide)
  unfold is_waste_management_question
  rw [hb, hw, hc]
  simp

/-- C8 witness: the empty text and a single-space text both fall through
to the default no-topic-match refusal. -/
theorem classifier_whitespace_default_witness :
    (∀ c ∈ ("".toList), c.isWhitespace = true) ∧
    is_waste_management_question ("".toList) = (false, [no_match_reason]) ∧
    (∀ c ∈ (" ".toList), c.isWhitespace = true) ∧
    is_waste_management_question (" ".toList) = (false, [no_match_reason]) :=
  ⟨by decide, classifier_whitespace_default _ (by decide),
   by decide, classifier_whitespace_default _ (by decide)⟩
